import Mathlib

/-
Verification of the vm-installer pipeline (main.go, installer.go).

The program is a linear pipeline of external-tool invocations sharing one
temporary working directory.  External tools (qemu-img, qemu-system-x86_64,
docker, which) are out of scope per the specification: only their exit
status, captured stdout, and file effects are relied upon, so each run is
parameterised by an oracle `Env` listing the outcome of every external
invocation.  The filesystem is an association list from paths (lists of
components, a shallow embedding of clean slash-separated paths) to file
contents.  The single goroutine spawned during the run-machine stage is
embedded by a two-valued schedule `Sched` describing which of the two
racing events (operator input on stdin, emulator exit) happens first.
-/

set_option autoImplicit false

namespace VMInstaller

/-- Error values returned by external tools and OS calls (Go `error`). -/
abbrev Err := String

/-- Paths as lists of components: `filepath.Join dir file` is `dir ++ [file]`. -/
abbrev Path := List String

/-- Rendering of a path as the slash-separated string Go works with. -/
def pathStr (p : Path) : String := "/" ++ String.intercalate "/" p

/-- Go string concatenation `p + suffix` on a path, for a suffix with no
slash: the suffix extends the last component. -/
def addToLast : Path → String → Path
  | [], suffix => [suffix]
  | [x], suffix => [x ++ suffix]
  | x :: y :: xs, suffix => x :: addToLast (y :: xs) suffix

/-- Go `filepath.Base` on a clean path: the last component (root for the
empty path). -/
def lastComponent (p : Path) : String := (p.getLast?).getD "/"

/-- Filesystem: association list from paths to file contents; the first
entry for a path is its current content. -/
abbrev FS := List (Path × String)

/-- Content of the file at `p`, `none` when no such file exists. -/
def lookupFS : FS → Path → Option String
  | [], _ => none
  | (q, c) :: rest, p => if q = p then some c else lookupFS rest p

/-- Create or overwrite the file at `p` with content `c`
(Go `ioutil.WriteFile`, or an external tool writing its output file). -/
def writeFS (fs : FS) (p : Path) (c : String) : FS := (p, c) :: fs

/-- Delete the file at `p`. -/
def removeFS : FS → Path → FS
  | [], _ => []
  | e :: rest, p => if e.1 = p then removeFS rest p else e :: removeFS rest p

/-- Does `dir` lead properly into `p` (is `p` strictly inside `dir`)? -/
def underDir : Path → Path → Bool
  | [], [] => false
  | [], _ :: _ => true
  | _ :: _, [] => false
  | d :: ds, x :: xs => d == x && underDir ds xs

/-- Is `p` the directory `dir` itself or a path inside it? -/
def inDir (dir p : Path) : Bool := p == dir || underDir dir p

/-- Go `os.RemoveAll dir`: delete `dir` and everything inside it. -/
def removeAllFS : FS → Path → FS
  | [], _ => []
  | e :: rest, dir =>
    if inDir dir e.1 then removeAllFS rest dir else e :: removeAllFS rest dir

/-- Go `os.Rename src dst`: atomic; fails (leaving the filesystem
unchanged) when the environment injects an error or the source is absent. -/
def renameFS (fs : FS) (src dst : Path) (inj : Option Err) : FS × Option Err :=
  match inj with
  | some e => (fs, some e)
  | none =>
    match lookupFS fs src with
    | none => (fs, some "rename: no such file or directory")
    | some c => (writeFS (removeFS fs src) dst c, none)

/-- Configuration parsed from the command-line flags (struct `Config`). -/
structure Config where
  isoFilepath : String
  imageSize : String
  image : String
  kvm : Bool
  compress : Bool
deriving DecidableEq

/-- Command-line invocation: which of the five flags were supplied
(`flag.StringVar` / `flag.BoolVar` fall back to the registered default
when a flag is absent). -/
structure Flags where
  iso : Option String
  size : Option String
  image : Option String
  kvm : Option Bool
  compress : Option Bool
deriving DecidableEq

/-- Embedding of `newConfigFromFlags`: apply the registered defaults, then
validate; `none` models `flag.Usage(); os.Exit(1)`. -/
def newConfigFromFlags (f : Flags) : Option Config :=
  let c : Config :=
    { isoFilepath := f.iso.getD ""
      imageSize := f.size.getD "50G"
      image := f.image.getD ""
      kvm := f.kvm.getD false
      compress := f.compress.getD false }
  if c.isoFilepath = "" ∨ c.image = "" then none else some c

/-- Fixed name of the disk image inside the working directory
(constant `imageFilename`). -/
def imageFilename : String := "base.qcow2"

/-- Struct `Installer`: configuration, working directory, derived path of
the disk image. -/
structure Installer where
  config : Config
  contextDir : Path
  imageFilepath : Path
deriving DecidableEq

/-- Embedding of `newInstaller` on the path where `ioutil.TempDir`
succeeds and yields the fresh directory `tmpdir`
(`imageFilepath = filepath.Join(contextDir, imageFilename)`). -/
def newInstaller (config : Config) (tmpdir : Path) : Installer :=
  { config := config, contextDir := tmpdir, imageFilepath := tmpdir ++ [imageFilename] }

/-- Oracle for one run: outcome (captured stdout, error, file effect) of
every external invocation and fallible OS call the pipeline can make. -/
structure Env where
  createOut : String
  createErr : Option Err
  createContent : String
  runOut : String
  runStartErr : Option Err
  runWaitErr : Option Err
  runContent : String
  signalErr : Option Err
  convertOut : String
  convertErr : Option Err
  convertContent : String
  renameErr : Option Err
  writeFileErr : Option Err
  buildOut : String
  buildErr : Option Err
  pushOut : String
  pushErr : Option Err
deriving DecidableEq

/-- Embedding of `Installer.createImage`: run
`qemu-img create -f qcow2 <imageFilepath> <imageSize>`; on success the
tool creates the disk image file. -/
def createImage (i : Installer) (env : Env) (fs : FS) : FS × String × Option Err :=
  match env.createErr with
  | some e => (fs, env.createOut, some e)
  | none => (writeFS fs i.imageFilepath env.createContent, env.createOut, none)

/-- Embedding of `Installer.compressImage`: run
`qemu-img convert -O qcow2 -c <imageFilepath> <tempFilepath>` (reads the
source, writes only the sibling temporary file), then
`os.Rename(tempFilepath, imageFilepath)`; the stage returns the conversion
captured stdout and the first error encountered. -/
def compressImage (i : Installer) (env : Env) (fs : FS) : FS × String × Option Err :=
  let tempFilepath := addToLast i.imageFilepath ".temp"
  match env.convertErr with
  | some e => (fs, env.convertOut, some e)
  | none =>
    let fs1 := writeFS fs tempFilepath env.convertContent
    match renameFS fs1 tempFilepath i.imageFilepath env.renameErr with
    | (fs2, e) => (fs2, env.convertOut, e)

/-- Events inside the run-machine stage. -/
inductive MEv where
  | start
  | readLine
  | signal
  | waitExit
deriving DecidableEq

/-- Result of a pipeline stage: a normal return with captured output and
optional error, or `log.Fatal` terminating the whole process. -/
inductive StageRes where
  | ret (out : String) (err : Option Err)
  | fatal (e : Err)
deriving DecidableEq

/-- Schedule of the race in `runMachine` between the spawned goroutine
(blocked reading stdin, then signalling) and the emulator process. -/
inductive Sched where
  /-- The operator input line arrives while the emulator still runs:
  the goroutine reads it and delivers the interrupt. -/
  | inputFirst
  /-- The emulator exits before any operator input; the goroutine stays
  blocked on stdin for the rest of the run. -/
  | exitFirst
deriving DecidableEq

/-- Argument list of the emulator before the kvm adjustment (the
`exec.Command` call in `Installer.runMachine`). -/
def qemuArgsBase (i : Installer) : List String :=
  ["qemu-system-x86_64",
   "-m", "size=1024",
   "-smp", "cpus=1",
   "-cdrom", i.config.isoFilepath,
   "-vnc", "0.0.0.0:0",
   "-drive", "file=" ++ pathStr i.imageFilepath]

/-- Final emulator argument list: when kvm is configured, `-enable-kvm`
is inserted right after the program name
(`cmd.Args = append([]string{cmd.Args[0], "-enable-kvm"}, cmd.Args[1:]...)`). -/
def qemuArgs (i : Installer) : List String :=
  if i.config.kvm then
    match qemuArgsBase i with
    | prog :: rest => prog :: "-enable-kvm" :: rest
    | [] => []
  else qemuArgsBase i

/-- Embedding of `Installer.runMachine`: start the emulator; spawn the
goroutine that reads one stdin line and delivers `os.Interrupt` (calling
`log.Fatal` when delivery fails); block on `cmd.Wait()`.  The emulator
owns the attached disk image file while it runs and may rewrite it. -/
def runMachine (i : Installer) (env : Env) (sched : Sched) (fs : FS) :
    FS × List MEv × StageRes :=
  match env.runStartErr with
  | some e => (fs, [MEv.start], StageRes.ret "" (some e))
  | none =>
    match sched with
    | Sched.inputFirst =>
      match env.signalErr with
      | some e => (fs, [MEv.start, MEv.readLine, MEv.signal], StageRes.fatal e)
      | none =>
        (writeFS fs i.imageFilepath env.runContent,
         [MEv.start, MEv.readLine, MEv.signal, MEv.waitExit],
         StageRes.ret env.runOut env.runWaitErr)
    | Sched.exitFirst =>
      (writeFS fs i.imageFilepath env.runContent,
       [MEv.start, MEv.waitExit],
       StageRes.ret env.runOut env.runWaitErr)

/-- Pipeline-level events of one `Install` run. -/
inductive IEv where
  | createStage
  | runStage
  | compressStage
  | buildStage
  | pushStage
  | writeDescriptor (content : String)
  | dockerBuild (tag : String) (dir : Path)
  | log (s : String)
  | removeDir
deriving DecidableEq

/-- Embedding of `Installer.writeDockerfile`: write the build descriptor
`FROM busybox\nCOPY <base filename of the disk image> /base_image/` into
the working directory. -/
def writeDockerfile (i : Installer) (env : Env) (fs : FS) : FS × Option Err :=
  let dockerFilepath := i.contextDir ++ ["Dockerfile"]
  let contents := "FROM busybox\nCOPY " ++ lastComponent i.imageFilepath ++ " /base_image/"
  match env.writeFileErr with
  | some e => (fs, some e)
  | none => (writeFS fs dockerFilepath contents, none)

/-- Embedding of `Installer.buildImage`: write the build descriptor; on
failure return the error with empty output, otherwise run
`docker build -t <image> <contextDir>`.  The event list records the
external effects in order. -/
def buildImage (i : Installer) (env : Env) (fs : FS) :
    FS × List IEv × String × Option Err :=
  match writeDockerfile i env fs with
  | (fs1, some e) => (fs1, [], "", some e)
  | (fs1, none) =>
    (fs1,
     [IEv.writeDescriptor ("FROM busybox\nCOPY " ++ lastComponent i.imageFilepath ++ " /base_image/"),
      IEv.dockerBuild i.config.image i.contextDir],
     env.buildOut, env.buildErr)

/-- Outcome of `Install`: a normal return (Go `error` result), or the
whole process terminated by `log.Fatal` inside the goroutine. -/
inductive IOut where
  | ret (e : Option Err)
  | fatal (e : Err)
deriving DecidableEq

/-- Result of one run of `Install`: final filesystem, event trace in
order, outcome. -/
structure IResult where
  fs : FS
  trace : List IEv
  out : IOut
deriving DecidableEq

/-- Tail of `Install` from the build stage on (stages 4 and 5), ending
with the deferred `os.RemoveAll(i.contextDir)` of every normal return. -/
def installTail (i : Installer) (env : Env) (fs : FS) (tr : List IEv) : IResult :=
  match buildImage i env fs with
  | (fs1, evs, out, some e) =>
    ⟨removeAllFS fs1 i.contextDir,
     tr ++ [IEv.buildStage] ++ evs ++ [IEv.log out, IEv.removeDir],
     IOut.ret (some e)⟩
  | (fs1, evs, _, none) =>
    match env.pushErr with
    | some e =>
      ⟨removeAllFS fs1 i.contextDir,
       tr ++ [IEv.buildStage] ++ evs ++ [IEv.pushStage, IEv.log env.pushOut, IEv.removeDir],
       IOut.ret (some e)⟩
    | none =>
      ⟨removeAllFS fs1 i.contextDir,
       tr ++ [IEv.buildStage] ++ evs ++ [IEv.pushStage, IEv.removeDir],
       IOut.ret none⟩

/-- Middle of `Install`: the optional compression stage (run only when
configured), then the tail. -/
def installCompress (i : Installer) (env : Env) (fs : FS) (tr : List IEv) : IResult :=
  if i.config.compress then
    match compressImage i env fs with
    | (fs1, out, some e) =>
      ⟨removeAllFS fs1 i.contextDir,
       tr ++ [IEv.compressStage, IEv.log out, IEv.removeDir],
       IOut.ret (some e)⟩
    | (fs1, _, none) => installTail i env fs1 (tr ++ [IEv.compressStage])
  else installTail i env fs tr

/-- Embedding of `Installer.Install`: create disk image, run machine,
optionally compress, build, push; on each stage failure log the captured
output and return the error.  The deferred `os.RemoveAll(i.contextDir)`
runs on every normal return; it is skipped when the `log.Fatal` of the goroutine (signal-delivery failure) terminates the process, because
`os.Exit` runs no deferred calls. -/
def Install (i : Installer) (env : Env) (sched : Sched) (fs : FS) : IResult :=
  match createImage i env fs with
  | (fs1, out, some e) =>
    ⟨removeAllFS fs1 i.contextDir,
     [IEv.createStage, IEv.log out, IEv.removeDir],
     IOut.ret (some e)⟩
  | (fs1, _, none) =>
    match runMachine i env sched fs1 with
    | (fs2, _, StageRes.fatal e) =>
      ⟨fs2, [IEv.createStage, IEv.runStage], IOut.fatal e⟩
    | (fs2, _, StageRes.ret out (some e)) =>
      ⟨removeAllFS fs2 i.contextDir,
       [IEv.createStage, IEv.runStage, IEv.log out, IEv.removeDir],
       IOut.ret (some e)⟩
    | (fs2, _, StageRes.ret _ none) =>
      installCompress i env fs2 [IEv.createStage, IEv.runStage]

/-- Events of the whole program (`main`). -/
inductive MainEv where
  /-- `exec.Command("which", p).Run()` inside `getFilepath`. -/
  | execWhich (p : String)
  /-- `flag.Usage()` printing the usage text. -/
  | usagePrint
  /-- `newInstaller(config)` was called. -/
  | installerConstructed
  /-- `installer.Install()` was called. -/
  | installRun
deriving DecidableEq

/-- How the process terminates. -/
inductive MainOut where
  /-- Normal exit: `log.Println("Done.")`, status 0. -/
  | exitZero
  /-- `os.Exit(1)` after printing usage. -/
  | usageExit
  /-- `log.Fatal` with the given message, status nonzero. -/
  | fatalMsg (s : String)
deriving DecidableEq

/-- Fixed list of required external programs (`processList` in main.go). -/
def processList : List String := ["docker", "qemu-system-x86_64", "qemu-img"]

/-- Preflight loop of `main`: for each required program run
`which <program>`; stop at the first one that does not resolve.  Returns
the process-execution events and the first missing name, if any. -/
def preflight (resolves : String → Bool) : List String → List MainEv × Option String
  | [] => ([], none)
  | p :: rest =>
    if resolves p then
      let r := preflight resolves rest
      (MainEv.execWhich p :: r.1, r.2)
    else ([MainEv.execWhich p], some p)

/-- First entry of the list not resolvable on the search path. -/
def firstMissing (resolves : String → Bool) : List String → Option String
  | [] => none
  | p :: rest => if resolves p then firstMissing resolves rest else some p

/-- Oracle for a whole program run: resolvability of the required
programs, the command line, the `ioutil.TempDir` outcome, and the
pipeline oracle. -/
structure MainEnv where
  resolves : String → Bool
  flags : Flags
  tempDirErr : Option Err
  tmpdir : Path
  env : Env
  sched : Sched
  fs : FS

/-- Embedding of `main`: preflight check, configuration, installer
construction (`ioutil.TempDir` creates the working directory), then
`Install()`; every failure becomes a fatal nonzero exit. -/
def mainRun (m : MainEnv) : List MainEv × MainOut :=
  let evs := (preflight m.resolves processList).1
  match (preflight m.resolves processList).2 with
  | some p => (evs, MainOut.fatalMsg ("Missing dependency: " ++ p))
  | none =>
    match newConfigFromFlags m.flags with
    | none => (evs ++ [MainEv.usagePrint], MainOut.usageExit)
    | some config =>
      match m.tempDirErr with
      | some e => (evs ++ [MainEv.installerConstructed], MainOut.fatalMsg e)
      | none =>
        let i := newInstaller config m.tmpdir
        let r := Install i m.env m.sched (writeFS m.fs m.tmpdir "")
        match r.out with
        | IOut.fatal e =>
          (evs ++ [MainEv.installerConstructed, MainEv.installRun], MainOut.fatalMsg e)
        | IOut.ret (some e) =>
          (evs ++ [MainEv.installerConstructed, MainEv.installRun], MainOut.fatalMsg e)
        | IOut.ret none =>
          (evs ++ [MainEv.installerConstructed, MainEv.installRun], MainOut.exitZero)

/-- Sample configuration used by concrete witnesses. -/
def sampleConfig : Config :=
  { isoFilepath := "/tmp/os.iso", imageSize := "20G",
    image := "registry.example/base:1", kvm := false, compress := true }

/-- Sample working directory used by concrete witnesses. -/
def sampleDir : Path := ["tmp", "docker-context1"]

/-- Sample installer used by concrete witnesses. -/
def sampleInstaller : Installer := newInstaller sampleConfig sampleDir

/-- Environment in which every external invocation succeeds. -/
def envAllOk : Env :=
  { createOut := "", createErr := none, createContent := "raw-disk"
    runOut := "", runStartErr := none, runWaitErr := none, runContent := "installed-disk"
    signalErr := none
    convertOut := "", convertErr := none, convertContent := "compressed-disk"
    renameErr := none
    writeFileErr := none
    buildOut := "built", buildErr := none
    pushOut := "pushed", pushErr := none }

/-- Initial sample filesystem: just the freshly created working
directory. -/
def sampleFS : FS := [(sampleDir, "")]

/-- Environment whose signal delivery fails (used as a counterexample). -/
def envSigFail : Env := { envAllOk with signalErr := some "operation not permitted" }

/-- Environment whose disk-image creation fails. -/
def envCreateFail : Env := { envAllOk with createErr := some "qemu-img: exit status 1", createOut := "create-output" }

/-- Environment whose convert step fails. -/
def envConvertFail : Env := { envAllOk with convertErr := some "qemu-img: exit status 1", convertOut := "convert-output" }

/-- Environment whose build-descriptor write fails. -/
def envWriteFail : Env := { envAllOk with writeFileErr := some "permission denied" }

/-- Sample command line omitting the iso flag. -/
def flagsNoIso : Flags := ⟨none, none, some "registry.example/base:1", none, none⟩

/-- Sample whole-program oracle: every dependency resolves, the iso flag
is missing, the pipeline oracle is all-success. -/
def mainEnvNoIso : MainEnv :=
  { resolves := fun _ => true, flags := flagsNoIso, tempDirErr := none,
    tmpdir := sampleDir, env := envAllOk, sched := Sched.inputFirst, fs := [] }

theorem lookup_write_self (fs : FS) (p : Path) (c : String) :
    lookupFS (writeFS fs p c) p = some c := by
  simp [writeFS, lookupFS]

theorem lookup_write_ne (fs : FS) {p q : Path} (c : String) (h : p ≠ q) :
    lookupFS (writeFS fs q c) p = lookupFS fs p := by
  simp [writeFS, lookupFS, Ne.symm h]

theorem lookup_remove_ne (fs : FS) {p q : Path} (h : p ≠ q) :
    lookupFS (removeFS fs q) p = lookupFS fs p := by
  induction fs with
  | nil => rfl
  | cons e rest ih =>
    rcases e with ⟨a, c⟩
    by_cases ha : a = q
    · subst ha
      simp [removeFS, lookupFS, Ne.symm h, ih]
    · by_cases hp : a = p <;> simp [removeFS, lookupFS, ha, hp, ih, h]

theorem lookup_removeAll (fs : FS) (dir p : Path) :
    lookupFS (removeAllFS fs dir) p =
      if inDir dir p then none else lookupFS fs p := by
  induction fs with
  | nil => cases h : inDir dir p <;> simp [removeAllFS, lookupFS, h]
  | cons e rest ih =>
    rcases e with ⟨a, c⟩
    cases he : inDir dir a with
    | true =>
      by_cases hp : a = p
      · subst hp
        simp [removeAllFS, lookupFS, he, ih]
      · cases hq : inDir dir p <;> simp [removeAllFS, lookupFS, he, hp, hq, ih]
    | false =>
      by_cases hp : a = p
      · subst hp
        simp [removeAllFS, lookupFS, he]
      · simp [removeAllFS, lookupFS, he, hp, ih]

theorem underDir_append (d : Path) (x : String) : underDir d (d ++ [x]) = true := by
  induction d with
  | nil => rfl
  | cons a as ih => simp [underDir, ih]

theorem inDir_append (d : Path) (x : String) : inDir d (d ++ [x]) = true := by
  simp [inDir, underDir_append]

theorem ne_of_inDir {d q p : Path} (h1 : inDir d q = true) (h2 : inDir d p = false) :
    p ≠ q := by
  intro hpq
  rw [hpq, h1] at h2
  exact Bool.noConfusion h2

theorem preflight_missing (r : String → Bool) (l : List String) :
    (preflight r l).2 = firstMissing r l := by
  induction l with
  | nil => rfl
  | cons p rest ih => by_cases h : r p <;> simp [preflight, firstMissing, h, ih]

theorem preflight_events (r : String → Bool) (l : List String) :
    ∀ ev ∈ (preflight r l).1, ∃ q, ev = MainEv.execWhich q := by
  induction l with
  | nil => intro ev h; exact absurd h (by simp [preflight])
  | cons p rest ih =>
    intro ev h
    by_cases hr : r p
    · simp [preflight, hr] at h
      rcases h with h | h
      · exact ⟨p, h⟩
      · exact ih ev h
    · simp [preflight, hr] at h
      exact ⟨p, h⟩

theorem preflight_all_ok (r : String → Bool) (l : List String)
    (h : ∀ p ∈ l, r p = true) :
    preflight r l = (l.map MainEv.execWhich, none) := by
  induction l with
  | nil => rfl
  | cons p rest ih =>
    have hp : r p = true := h p (by simp)
    simp [preflight, hp, ih (fun q hq => h q (by simp [hq]))]

theorem lookup_remove_self (fs : FS) (p : Path) :
    lookupFS (removeFS fs p) p = none := by
  induction fs with
  | nil => rfl
  | cons e rest ih =>
    by_cases ha : e.1 = p <;> simp [removeFS, lookupFS, ha, ih]

theorem addToLast_ne (p : Path) : addToLast p ".temp" ≠ p := by
  induction p with
  | nil => simp [addToLast]
  | cons x xs ih =>
    cases xs with
    | nil =>
      simp only [addToLast, List.cons.injEq, and_true, ne_eq]
      intro hx
      have hlen := congrArg String.length hx
      have h5 : (".temp" : String).length = 5 := rfl
      rw [String.length_append, h5] at hlen
      omega
    | cons y ys =>
      simp only [addToLast, ne_eq, List.cons.injEq, true_and]
      intro hx
      exact ih hx

theorem addToLast_append (l : List String) (x s : String) :
    addToLast (l ++ [x]) s = l ++ [x ++ s] := by
  induction l with
  | nil => rfl
  | cons a as ih =>
    cases as with
    | nil => rfl
    | cons b bs =>
      show a :: addToLast ((b :: bs) ++ [x]) s = a :: ((b :: bs) ++ [x ++ s])
      exact congrArg (List.cons a) ih

/-- C3: when compression is configured and the conversion to the
compressed encoding fails, the filesystem — in particular the original
disk image at the derived path — is left unmodified, the stage returns
the conversion error with the captured conversion output, and the pipeline
aborts with that error. -/
theorem compress_failure_keeps_original (config : Config) (tmpdir : Path)
    (env : Env) (sched : Sched) (fs : FS) (e : Err)
    (hconv : env.convertErr = some e) :
    compressImage (newInstaller config tmpdir) env fs = (fs, env.convertOut, some e)
    ∧ (config.compress = true → env.createErr = none → env.runStartErr = none →
        env.runWaitErr = none → (sched = Sched.inputFirst → env.signalErr = none) →
        (Install (newInstaller config tmpdir) env sched fs).out = IOut.ret (some e)) := by
  constructor
  · simp [compressImage, hconv]
  · intro hcomp hcreate hstart hwait hsig
    cases sched with
    | inputFirst =>
      simp [Install, createImage, hcreate, runMachine, hstart, hsig rfl, hwait,
        installCompress, newInstaller, hcomp, compressImage, hconv]
    | exitFirst =>
      simp [Install, createImage, hcreate, runMachine, hstart, hwait,
        installCompress, newInstaller, hcomp, compressImage, hconv]

/-- Witness for C3 at a concrete input: convert fails, the filesystem is
returned untouched together with the conversion error. -/
theorem compress_failure_keeps_original_w :
    compressImage (newInstaller sampleConfig sampleDir) envConvertFail
        [(sampleDir ++ [imageFilename], "orig")] =
      ([(sampleDir ++ [imageFilename], "orig")], "convert-output",
       some "qemu-img: exit status 1") :=
  (compress_failure_keeps_original sampleConfig sampleDir envConvertFail
    Sched.inputFirst [(sampleDir ++ [imageFilename], "orig")]
    "qemu-img: exit status 1" rfl).1

/-- C4: when the compression stage returns no error, the disk image at
the original derived path holds the converted content, the sibling
temporary file no longer exists, and the captured output is the stdout of the conversion. -/
theorem compress_success_replaces_original (i : Installer) (env : Env) (fs : FS)
    (h : (compressImage i env fs).2.2 = none) :
    lookupFS (compressImage i env fs).1 i.imageFilepath = some env.convertContent
    ∧ lookupFS (compressImage i env fs).1 (addToLast i.imageFilepath ".temp") = none
    ∧ (compressImage i env fs).2.1 = env.convertOut := by
  cases hconv : env.convertErr with
  | some e => simp [compressImage, hconv] at h
  | none =>
    cases hren : env.renameErr with
    | some e => simp [compressImage, hconv, renameFS, hren] at h
    | none =>
      have hne := addToLast_ne i.imageFilepath
      refine ⟨?_, ?_, ?_⟩
      · simp [compressImage, hconv, renameFS, hren, lookup_write_self]
      · simp only [compressImage, renameFS, hconv, hren, lookup_write_self]
        rw [lookup_write_ne _ _ hne, lookup_remove_self]
      · simp [compressImage, hconv, renameFS, hren, lookup_write_self]

/-- Witness for C4 at a concrete input: convert and rename succeed, the
original filename holds the compressed content and the temporary is
gone. -/
theorem compress_success_replaces_original_w :
    lookupFS (compressImage sampleInstaller envAllOk
        [(sampleDir ++ [imageFilename], "orig")]).1
      sampleInstaller.imageFilepath = some "compressed-disk" :=
  (compress_success_replaces_original sampleInstaller envAllOk
    [(sampleDir ++ [imageFilename], "orig")] rfl).1

/-- C9: on the build stage, when the descriptor write succeeds, the
build descriptor `FROM busybox\nCOPY base.qcow2 /base_image/` (the base
filename of the disk image) is written into the working directory, and
then — in that order — the container build tool is invoked against that
directory with the configured image identifier as tag. -/
theorem dockerfile_content_and_build (config : Config) (tmpdir : Path)
    (env : Env) (fs : FS) (h : env.writeFileErr = none) :
    buildImage (newInstaller config tmpdir) env fs =
      (writeFS fs (tmpdir ++ ["Dockerfile"]) "FROM busybox\nCOPY base.qcow2 /base_image/",
       [IEv.writeDescriptor "FROM busybox\nCOPY base.qcow2 /base_image/",
        IEv.dockerBuild config.image tmpdir],
       env.buildOut, env.buildErr) := by
  have hbase : lastComponent (tmpdir ++ [imageFilename]) = "base.qcow2" := by
    simp [lastComponent, imageFilename, List.getLast?_concat]
  have hstr : "FROM busybox\nCOPY " ++ lastComponent (tmpdir ++ [imageFilename]) ++ " /base_image/" =
      "FROM busybox\nCOPY base.qcow2 /base_image/" := by
    rw [hbase]
    rfl
  simp [buildImage, writeDockerfile, h, newInstaller, hstr]

/-- Witness for C9 at a concrete input. -/
theorem dockerfile_content_and_build_w :
    buildImage (newInstaller sampleConfig sampleDir) envAllOk [] =
      (writeFS [] (sampleDir ++ ["Dockerfile"]) "FROM busybox\nCOPY base.qcow2 /base_image/",
       [IEv.writeDescriptor "FROM busybox\nCOPY base.qcow2 /base_image/",
        IEv.dockerBuild "registry.example/base:1" sampleDir],
       "built", none) :=
  dockerfile_content_and_build sampleConfig sampleDir envAllOk [] rfl

/-- C10: when writing the build descriptor fails, the build stage returns
the write error with empty captured output, the filesystem is untouched,
and the container build tool is never invoked. -/
theorem descriptor_write_failure_skips_build (i : Installer) (env : Env) (fs : FS)
    (e : Err) (h : env.writeFileErr = some e) :
    buildImage i env fs = (fs, [], "", some e)
    ∧ (∀ t d, IEv.dockerBuild t d ∉ (buildImage i env fs).2.1) := by
  have hb : buildImage i env fs = (fs, [], "", some e) := by
    simp [buildImage, writeDockerfile, h]
  exact ⟨hb, by simp [hb]⟩

/-- Witness for C10 at a concrete input. -/
theorem descriptor_write_failure_skips_build_w :
    buildImage sampleInstaller envWriteFail [] = ([], [], "", some "permission denied") :=
  (descriptor_write_failure_skips_build sampleInstaller envWriteFail []
    "permission denied" rfl).1

/-- C8: the emulator command line always carries 1024 MB memory, 1
virtual CPU, the configured ISO as install media, a remote display bound
to all interfaces, and the created disk image as drive; `-enable-kvm` is
inserted (right after the program name) exactly when the acceleration
flag is configured. -/
theorem qemu_fixed_invocation (i : Installer) :
    ["-m", "size=1024"] <:+: qemuArgs i
    ∧ ["-smp", "cpus=1"] <:+: qemuArgs i
    ∧ ["-cdrom", i.config.isoFilepath] <:+: qemuArgs i
    ∧ ["-vnc", "0.0.0.0:0"] <:+: qemuArgs i
    ∧ ["-drive", "file=" ++ pathStr i.imageFilepath] <:+: qemuArgs i
    ∧ (i.config.kvm = true ↔
        qemuArgs i = "qemu-system-x86_64" :: "-enable-kvm" ::
          ["-m", "size=1024", "-smp", "cpus=1", "-cdrom", i.config.isoFilepath,
           "-vnc", "0.0.0.0:0", "-drive", "file=" ++ pathStr i.imageFilepath]) := by
  cases hk : i.config.kvm with
  | true =>
    have hq : qemuArgs i = "qemu-system-x86_64" :: "-enable-kvm" ::
        ["-m", "size=1024", "-smp", "cpus=1", "-cdrom", i.config.isoFilepath,
         "-vnc", "0.0.0.0:0", "-drive", "file=" ++ pathStr i.imageFilepath] := by
      simp [qemuArgs, qemuArgsBase, hk]
    rw [hq]
    refine ⟨⟨["qemu-system-x86_64", "-enable-kvm"], _, rfl⟩,
      ⟨["qemu-system-x86_64", "-enable-kvm", "-m", "size=1024"], _, rfl⟩,
      ⟨["qemu-system-x86_64", "-enable-kvm", "-m", "size=1024", "-smp", "cpus=1"], _, rfl⟩,
      ⟨["qemu-system-x86_64", "-enable-kvm", "-m", "size=1024", "-smp", "cpus=1",
        "-cdrom", i.config.isoFilepath], _, rfl⟩,
      ⟨["qemu-system-x86_64", "-enable-kvm", "-m", "size=1024", "-smp", "cpus=1",
        "-cdrom", i.config.isoFilepath, "-vnc", "0.0.0.0:0"], [], rfl⟩,
      by simp⟩
  | false =>
    have hq : qemuArgs i = ["qemu-system-x86_64", "-m", "size=1024", "-smp", "cpus=1",
        "-cdrom", i.config.isoFilepath, "-vnc", "0.0.0.0:0",
        "-drive", "file=" ++ pathStr i.imageFilepath] := by
      simp [qemuArgs, qemuArgsBase, hk]
    rw [hq]
    refine ⟨⟨["qemu-system-x86_64"], _, rfl⟩,
      ⟨["qemu-system-x86_64", "-m", "size=1024"], _, rfl⟩,
      ⟨["qemu-system-x86_64", "-m", "size=1024", "-smp", "cpus=1"], _, rfl⟩,
      ⟨["qemu-system-x86_64", "-m", "size=1024", "-smp", "cpus=1",
        "-cdrom", i.config.isoFilepath], _, rfl⟩,
      ⟨["qemu-system-x86_64", "-m", "size=1024", "-smp", "cpus=1",
        "-cdrom", i.config.isoFilepath, "-vnc", "0.0.0.0:0"], [], rfl⟩,
      ?_⟩
    constructor
    · intro hcontra
      exact Bool.noConfusion hcontra
    · intro hcontra
      have := congrArg (fun l => l.get? 1) hcontra
      simp at this

/-- Witness for C8 at a concrete input: the memory option is on the
sample command line. -/
theorem qemu_fixed_invocation_w :
    ["-m", "size=1024"] <:+: qemuArgs sampleInstaller :=
  (qemu_fixed_invocation sampleInstaller).1

/-- C7: in every schedule of the run-machine stage (once the emulator
started), the interrupt is delivered exactly once after the operator
line is read and never otherwise, immediately after the read; whenever
the stage completes normally its last action is waiting for the emulator
process to exit; and a failed signal delivery turns into `log.Fatal` for
the whole program. -/
theorem run_signal_wait_discipline (i : Installer) (env : Env) (sched : Sched) (fs : FS)
    (h : env.runStartErr = none) :
    (MEv.readLine ∈ (runMachine i env sched fs).2.1 →
      ((runMachine i env sched fs).2.1).count MEv.signal = 1)
    ∧ (MEv.readLine ∉ (runMachine i env sched fs).2.1 →
      ((runMachine i env sched fs).2.1).count MEv.signal = 0)
    ∧ (MEv.signal ∈ (runMachine i env sched fs).2.1 →
      [MEv.readLine, MEv.signal] <:+: (runMachine i env sched fs).2.1)
    ∧ (∀ out err, (runMachine i env sched fs).2.2 = StageRes.ret out err →
      ((runMachine i env sched fs).2.1).getLast? = some MEv.waitExit)
    ∧ (∀ e, env.signalErr = some e → MEv.signal ∈ (runMachine i env sched fs).2.1 →
      (runMachine i env sched fs).2.2 = StageRes.fatal e) := by
  cases sched with
  | inputFirst =>
    cases hsig : env.signalErr with
    | some e =>
      have h21 : (runMachine i env Sched.inputFirst fs).2.1 =
          [MEv.start, MEv.readLine, MEv.signal] := by
        simp [runMachine, h, hsig]
      have h22 : (runMachine i env Sched.inputFirst fs).2.2 = StageRes.fatal e := by
        simp [runMachine, h, hsig]
      rw [h21, h22]
      refine ⟨fun _ => by decide, fun hm => absurd (by decide) hm,
        fun _ => ⟨[MEv.start], [], rfl⟩, ?_, ?_⟩
      · intro out err hc
        exact absurd hc (by simp)
      · intro e2 he2 _
        cases he2
        rfl
    | none =>
      have h21 : (runMachine i env Sched.inputFirst fs).2.1 =
          [MEv.start, MEv.readLine, MEv.signal, MEv.waitExit] := by
        simp [runMachine, h, hsig]
      have h22 : (runMachine i env Sched.inputFirst fs).2.2 =
          StageRes.ret env.runOut env.runWaitErr := by
        simp [runMachine, h, hsig]
      rw [h21, h22]
      refine ⟨fun _ => by decide, fun hm => absurd (by decide) hm,
        fun _ => ⟨[MEv.start], [MEv.waitExit], rfl⟩, fun _ _ _ => by decide, ?_⟩
      intro e2 he2 _
      exact Option.noConfusion he2
  | exitFirst =>
    have h21 : (runMachine i env Sched.exitFirst fs).2.1 = [MEv.start, MEv.waitExit] := by
      simp [runMachine, h]
    have h22 : (runMachine i env Sched.exitFirst fs).2.2 =
        StageRes.ret env.runOut env.runWaitErr := by
      simp [runMachine, h]
    rw [h21, h22]
    refine ⟨fun hm => absurd hm (by decide), fun _ => by decide,
      fun hm => absurd hm (by decide), fun _ _ _ => by decide,
      fun e2 he2 hm => absurd hm (by decide)⟩

/-- Witness for C7 at a concrete input: under the input-first schedule
the interrupt is delivered exactly once. -/
theorem run_signal_wait_discipline_w :
    ((runMachine sampleInstaller envAllOk Sched.inputFirst sampleFS).2.1).count MEv.signal = 1 :=
  (run_signal_wait_discipline sampleInstaller envAllOk Sched.inputFirst sampleFS rfl).1
    (by decide)

/-- C6: when some required program does not resolve, the program
terminates with a fatal message naming the first missing one, before an
installer is constructed, before the pipeline runs, and before
configuration validation; the only events are dependency-resolution
process executions. -/
theorem missing_dependency_fatal (m : MainEnv) (p : String)
    (h : firstMissing m.resolves processList = some p) :
    (mainRun m).2 = MainOut.fatalMsg ("Missing dependency: " ++ p)
    ∧ MainEv.installerConstructed ∉ (mainRun m).1
    ∧ MainEv.installRun ∉ (mainRun m).1
    ∧ ∀ ev ∈ (mainRun m).1, ∃ q, ev = MainEv.execWhich q := by
  have hp : (preflight m.resolves processList).2 = some p := by
    rw [preflight_missing]
    exact h
  have hmain : mainRun m =
      ((preflight m.resolves processList).1,
       MainOut.fatalMsg ("Missing dependency: " ++ p)) := by
    rw [mainRun]
    rw [hp]
  rw [hmain]
  refine ⟨rfl, ?_, ?_, ?_⟩
  · intro hm
    obtain ⟨q, hq⟩ := preflight_events m.resolves processList _ hm
    exact absurd hq (by simp)
  · intro hm
    obtain ⟨q, hq⟩ := preflight_events m.resolves processList _ hm
    exact absurd hq (by simp)
  · exact preflight_events m.resolves processList

/-- Witness for C6 at a concrete input: `qemu-img` unresolvable. -/
theorem missing_dependency_fatal_w :
    (mainRun { resolves := fun p => decide (p ≠ "qemu-img"), flags := flagsNoIso,
               tempDirErr := none, tmpdir := sampleDir, env := envAllOk,
               sched := Sched.inputFirst, fs := [] }).2 =
      MainOut.fatalMsg "Missing dependency: qemu-img" :=
  (missing_dependency_fatal _ "qemu-img" (by decide)).1

/-- C5 amended: when preflight passes and the iso or image parameter is
empty, configuration loading prints usage and the program exits nonzero,
with no installer constructed and no pipeline stage invoked (the
preflight dependency-resolution processes have already run at that
point); omitted parameters default to size "50G", no acceleration, no
compression. -/
theorem config_validation_fails_fast (m : MainEnv)
    (hres : ∀ p ∈ processList, m.resolves p = true)
    (hflag : m.flags.iso.getD "" = "" ∨ m.flags.image.getD "" = "") :
    mainRun m = (processList.map MainEv.execWhich ++ [MainEv.usagePrint], MainOut.usageExit)
    ∧ (∀ isoV img : String, isoV ≠ "" → img ≠ "" →
        newConfigFromFlags ⟨some isoV, none, some img, none, none⟩ =
          some ⟨isoV, "50G", img, false, false⟩) := by
  constructor
  · have hpre := preflight_all_ok m.resolves processList hres
    have hcfg : newConfigFromFlags m.flags = none := by
      rcases hflag with h | h <;> simp [newConfigFromFlags, h]
    rw [mainRun, hpre]
    simp [hcfg, hpre]
  · intro isoV img hiso himg
    simp [newConfigFromFlags, hiso, himg]

/-- Witness for the amended claim C5 at a concrete input. -/
theorem config_validation_fails_fast_w :
    mainRun mainEnvNoIso =
      (processList.map MainEv.execWhich ++ [MainEv.usagePrint], MainOut.usageExit) :=
  (config_validation_fails_fast mainEnvNoIso (fun _ _ => rfl) (Or.inl rfl)).1

/-- Counterexample to C5 as stated: with the iso parameter missing (and
every dependency resolvable), the very first event of the run is an
external process execution — `which docker` — which therefore precedes
the usage exit, contradicting "exits ... before any external process is
invoked". -/
theorem preflight_exec_precedes_usage_exit :
    (mainRun mainEnvNoIso).1.head? = some (MainEv.execWhich "docker")
    ∧ (mainRun mainEnvNoIso).2 = MainOut.usageExit := by
  decide

/-- C1: every stage failure (a stage returning an error) makes `Install`
log the captured output of that stage, skip every later stage, and return
the error of that stage.  The eight conjuncts cover, in order: disk-image
creation failing; the emulator failing to start; the emulator exiting
with an error; conversion failing; the rename after conversion failing;
the descriptor write failing; the container build failing; the push
failing. -/
theorem stage_failure_aborts_pipeline (i : Installer) (env : Env) (sched : Sched) (fs : FS) :
    (∀ e, env.createErr = some e →
      (Install i env sched fs).out = IOut.ret (some e)
      ∧ IEv.log env.createOut ∈ (Install i env sched fs).trace
      ∧ IEv.runStage ∉ (Install i env sched fs).trace
      ∧ IEv.compressStage ∉ (Install i env sched fs).trace
      ∧ IEv.buildStage ∉ (Install i env sched fs).trace
      ∧ IEv.pushStage ∉ (Install i env sched fs).trace)
    ∧ (∀ e, env.createErr = none → env.runStartErr = some e →
      (Install i env sched fs).out = IOut.ret (some e)
      ∧ IEv.log "" ∈ (Install i env sched fs).trace
      ∧ IEv.compressStage ∉ (Install i env sched fs).trace
      ∧ IEv.buildStage ∉ (Install i env sched fs).trace
      ∧ IEv.pushStage ∉ (Install i env sched fs).trace)
    ∧ (∀ e, env.createErr = none → env.runStartErr = none →
        (sched = Sched.inputFirst → env.signalErr = none) → env.runWaitErr = some e →
      (Install i env sched fs).out = IOut.ret (some e)
      ∧ IEv.log env.runOut ∈ (Install i env sched fs).trace
      ∧ IEv.compressStage ∉ (Install i env sched fs).trace
      ∧ IEv.buildStage ∉ (Install i env sched fs).trace
      ∧ IEv.pushStage ∉ (Install i env sched fs).trace)
    ∧ (∀ e, env.createErr = none → env.runStartErr = none →
        (sched = Sched.inputFirst → env.signalErr = none) → env.runWaitErr = none →
        i.config.compress = true → env.convertErr = some e →
      (Install i env sched fs).out = IOut.ret (some e)
      ∧ IEv.log env.convertOut ∈ (Install i env sched fs).trace
      ∧ IEv.buildStage ∉ (Install i env sched fs).trace
      ∧ IEv.pushStage ∉ (Install i env sched fs).trace)
    ∧ (∀ e, env.createErr = none → env.runStartErr = none →
        (sched = Sched.inputFirst → env.signalErr = none) → env.runWaitErr = none →
        i.config.compress = true → env.convertErr = none → env.renameErr = some e →
      (Install i env sched fs).out = IOut.ret (some e)
      ∧ IEv.log env.convertOut ∈ (Install i env sched fs).trace
      ∧ IEv.buildStage ∉ (Install i env sched fs).trace
      ∧ IEv.pushStage ∉ (Install i env sched fs).trace)
    ∧ (∀ e, env.createErr = none → env.runStartErr = none →
        (sched = Sched.inputFirst → env.signalErr = none) → env.runWaitErr = none →
        (i.config.compress = true → env.convertErr = none ∧ env.renameErr = none) →
        env.writeFileErr = some e →
      (Install i env sched fs).out = IOut.ret (some e)
      ∧ IEv.log "" ∈ (Install i env sched fs).trace
      ∧ (∀ t d, IEv.dockerBuild t d ∉ (Install i env sched fs).trace)
      ∧ IEv.pushStage ∉ (Install i env sched fs).trace)
    ∧ (∀ e, env.createErr = none → env.runStartErr = none →
        (sched = Sched.inputFirst → env.signalErr = none) → env.runWaitErr = none →
        (i.config.compress = true → env.convertErr = none ∧ env.renameErr = none) →
        env.writeFileErr = none → env.buildErr = some e →
      (Install i env sched fs).out = IOut.ret (some e)
      ∧ IEv.log env.buildOut ∈ (Install i env sched fs).trace
      ∧ IEv.pushStage ∉ (Install i env sched fs).trace)
    ∧ (∀ e, env.createErr = none → env.runStartErr = none →
        (sched = Sched.inputFirst → env.signalErr = none) → env.runWaitErr = none →
        (i.config.compress = true → env.convertErr = none ∧ env.renameErr = none) →
        env.writeFileErr = none → env.buildErr = none → env.pushErr = some e →
      (Install i env sched fs).out = IOut.ret (some e)
      ∧ IEv.log env.pushOut ∈ (Install i env sched fs).trace) := by
  refine ⟨?_, ?_, ?_, ?_, ?_, ?_, ?_, ?_⟩
  · intro e he
    simp [Install, createImage, he]
  · intro e hce hse
    simp [Install, createImage, hce, runMachine, hse]
  · intro e hce hse hsig hwait
    cases sched with
    | inputFirst =>
      simp [Install, createImage, hce, runMachine, hse, hsig rfl, hwait]
    | exitFirst =>
      simp [Install, createImage, hce, runMachine, hse, hwait]
  · intro e hce hse hsig hwait hcomp hconv
    cases sched with
    | inputFirst =>
      simp [Install, createImage, hce, runMachine, hse, hsig rfl, hwait,
        installCompress, hcomp, compressImage, hconv]
    | exitFirst =>
      simp [Install, createImage, hce, runMachine, hse, hwait,
        installCompress, hcomp, compressImage, hconv]
  · intro e hce hse hsig hwait hcomp hconv hren
    cases sched with
    | inputFirst =>
      simp [Install, createImage, hce, runMachine, hse, hsig rfl, hwait,
        installCompress, hcomp, compressImage, hconv, renameFS, hren]
    | exitFirst =>
      simp [Install, createImage, hce, runMachine, hse, hwait,
        installCompress, hcomp, compressImage, hconv, renameFS, hren]
  · intro e hce hse hsig hwait hcompOk hwf
    by_cases hc : i.config.compress
    · obtain ⟨hcv, hre⟩ := hcompOk hc
      cases sched with
      | inputFirst =>
        simp [Install, createImage, hce, runMachine, hse, hsig rfl, hwait,
          installCompress, hc, compressImage, hcv, renameFS, hre, lookup_write_self,
          installTail, buildImage, writeDockerfile, hwf]
      | exitFirst =>
        simp [Install, createImage, hce, runMachine, hse, hwait,
          installCompress, hc, compressImage, hcv, renameFS, hre, lookup_write_self,
          installTail, buildImage, writeDockerfile, hwf]
    · cases sched with
      | inputFirst =>
        simp [Install, createImage, hce, runMachine, hse, hsig rfl, hwait,
          installCompress, hc, installTail, buildImage, writeDockerfile, hwf]
      | exitFirst =>
        simp [Install, createImage, hce, runMachine, hse, hwait,
          installCompress, hc, installTail, buildImage, writeDockerfile, hwf]
  · intro e hce hse hsig hwait hcompOk hwf hb
    by_cases hc : i.config.compress
    · obtain ⟨hcv, hre⟩ := hcompOk hc
      cases sched with
      | inputFirst =>
        simp [Install, createImage, hce, runMachine, hse, hsig rfl, hwait,
          installCompress, hc, compressImage, hcv, renameFS, hre, lookup_write_self,
          installTail, buildImage, writeDockerfile, hwf, hb]
      | exitFirst =>
        simp [Install, createImage, hce, runMachine, hse, hwait,
          installCompress, hc, compressImage, hcv, renameFS, hre, lookup_write_self,
          installTail, buildImage, writeDockerfile, hwf, hb]
    · cases sched with
      | inputFirst =>
        simp [Install, createImage, hce, runMachine, hse, hsig rfl, hwait,
          installCompress, hc, installTail, buildImage, writeDockerfile, hwf, hb]
      | exitFirst =>
        simp [Install, createImage, hce, runMachine, hse, hwait,
          installCompress, hc, installTail, buildImage, writeDockerfile, hwf, hb]
  · intro e hce hse hsig hwait hcompOk hwf hb hpu
    by_cases hc : i.config.compress
    · obtain ⟨hcv, hre⟩ := hcompOk hc
      cases sched with
      | inputFirst =>
        simp [Install, createImage, hce, runMachine, hse, hsig rfl, hwait,
          installCompress, hc, compressImage, hcv, renameFS, hre, lookup_write_self,
          installTail, buildImage, writeDockerfile, hwf, hb, hpu]
      | exitFirst =>
        simp [Install, createImage, hce, runMachine, hse, hwait,
          installCompress, hc, compressImage, hcv, renameFS, hre, lookup_write_self,
          installTail, buildImage, writeDockerfile, hwf, hb, hpu]
    · cases sched with
      | inputFirst =>
        simp [Install, createImage, hce, runMachine, hse, hsig rfl, hwait,
          installCompress, hc, installTail, buildImage, writeDockerfile, hwf, hb, hpu]
      | exitFirst =>
        simp [Install, createImage, hce, runMachine, hse, hwait,
          installCompress, hc, installTail, buildImage, writeDockerfile, hwf, hb, hpu]

/-- Witness for C1 at a concrete input: creation fails, the pipeline
returns the error, logs the captured output, and skips all later
stages. -/
theorem stage_failure_aborts_pipeline_w :
    (Install sampleInstaller envCreateFail Sched.inputFirst sampleFS).out =
      IOut.ret (some "qemu-img: exit status 1")
    ∧ IEv.log "create-output" ∈
        (Install sampleInstaller envCreateFail Sched.inputFirst sampleFS).trace
    ∧ IEv.runStage ∉ (Install sampleInstaller envCreateFail Sched.inputFirst sampleFS).trace
    ∧ IEv.compressStage ∉ (Install sampleInstaller envCreateFail Sched.inputFirst sampleFS).trace
    ∧ IEv.buildStage ∉ (Install sampleInstaller envCreateFail Sched.inputFirst sampleFS).trace
    ∧ IEv.pushStage ∉ (Install sampleInstaller envCreateFail Sched.inputFirst sampleFS).trace :=
  (stage_failure_aborts_pipeline sampleInstaller envCreateFail Sched.inputFirst sampleFS).1
    "qemu-img: exit status 1" rfl

theorem installTail_lookup (i : Installer) (env : Env) (fs : FS) (tr : List IEv) (p : Path) :
    (inDir i.contextDir p = true → lookupFS (installTail i env fs tr).fs p = none)
    ∧ (inDir i.contextDir p = false →
      lookupFS (installTail i env fs tr).fs p = lookupFS fs p) := by
  have hne : inDir i.contextDir p = false → p ≠ i.contextDir ++ ["Dockerfile"] :=
    fun hp => ne_of_inDir (inDir_append i.contextDir "Dockerfile") hp
  cases hwf : env.writeFileErr with
  | some e =>
    constructor <;> intro hp <;>
      simp [installTail, buildImage, writeDockerfile, hwf, lookup_removeAll, hp]
  | none =>
    cases hb : env.buildErr with
    | some e =>
      constructor
      · intro hp
        simp only [installTail, buildImage, writeDockerfile, hwf, hb]
        rw [lookup_removeAll]
        simp [hp]
      · intro hp
        simp only [installTail, buildImage, writeDockerfile, hwf, hb]
        rw [lookup_removeAll]
        simp only [hp, Bool.false_eq_true, if_false]
        exact lookup_write_ne _ _ (hne hp)
    | none =>
      cases hpu : env.pushErr with
      | some e2 =>
        constructor
        · intro hp
          simp only [installTail, buildImage, writeDockerfile, hwf, hb, hpu]
          rw [lookup_removeAll]
          simp [hp]
        · intro hp
          simp only [installTail, buildImage, writeDockerfile, hwf, hb, hpu]
          rw [lookup_removeAll]
          simp only [hp, Bool.false_eq_true, if_false]
          exact lookup_write_ne _ _ (hne hp)
      | none =>
        constructor
        · intro hp
          simp only [installTail, buildImage, writeDockerfile, hwf, hb, hpu]
          rw [lookup_removeAll]
          simp [hp]
        · intro hp
          simp only [installTail, buildImage, writeDockerfile, hwf, hb, hpu]
          rw [lookup_removeAll]
          simp only [hp, Bool.false_eq_true, if_false]
          exact lookup_write_ne _ _ (hne hp)

theorem installCompress_lookup (config : Config) (tmpdir : Path) (env : Env) (fs : FS)
    (tr : List IEv) (p : Path) :
    (inDir tmpdir p = true →
      lookupFS (installCompress (newInstaller config tmpdir) env fs tr).fs p = none)
    ∧ (inDir tmpdir p = false →
      lookupFS (installCompress (newInstaller config tmpdir) env fs tr).fs p = lookupFS fs p) := by
  have htemp : addToLast (tmpdir ++ [imageFilename]) ".temp" =
      tmpdir ++ [imageFilename ++ ".temp"] := addToLast_append tmpdir imageFilename ".temp"
  have hun : inDir tmpdir (addToLast (tmpdir ++ [imageFilename]) ".temp") = true := by
    rw [htemp]
    exact inDir_append _ _
  have himg : inDir tmpdir (tmpdir ++ [imageFilename]) = true := inDir_append _ _
  by_cases hc : config.compress
  · cases hcv : env.convertErr with
    | some e =>
      constructor
      · intro hp
        simp only [installCompress, newInstaller, hc, if_true, compressImage, hcv]
        rw [lookup_removeAll]
        simp [hp]
      · intro hp
        simp only [installCompress, newInstaller, hc, if_true, compressImage, hcv]
        rw [lookup_removeAll]
        simp [hp]
    | none =>
      cases hre : env.renameErr with
      | some e =>
        constructor
        · intro hp
          simp only [installCompress, newInstaller, hc, if_true, compressImage, hcv,
            renameFS, hre]
          rw [lookup_removeAll]
          simp [hp]
        · intro hp
          simp only [installCompress, newInstaller, hc, if_true, compressImage, hcv,
            renameFS, hre]
          rw [lookup_removeAll]
          simp only [hp, Bool.false_eq_true, if_false]
          exact lookup_write_ne _ _ (ne_of_inDir hun hp)
      | none =>
        constructor
        · intro hp
          simp only [installCompress, newInstaller, hc, if_true, compressImage, hcv,
            renameFS, hre, lookup_write_self]
          exact (installTail_lookup _ env _ _ p).1 hp
        · intro hp
          simp only [installCompress, newInstaller, hc, if_true, compressImage, hcv,
            renameFS, hre, lookup_write_self]
          refine ((installTail_lookup _ env _ _ p).2 hp).trans ?_
          rw [lookup_write_ne _ _ (ne_of_inDir himg hp),
            lookup_remove_ne _ (ne_of_inDir hun hp),
            lookup_write_ne _ _ (ne_of_inDir hun hp)]
  · constructor
    · intro hp
      simp only [installCompress, newInstaller, hc, if_false]
      exact (installTail_lookup _ env _ _ p).1 hp
    · intro hp
      simp only [installCompress, newInstaller, hc, if_false]
      exact (installTail_lookup _ env _ _ p).2 hp

/-- C2 amended: whenever `Install` returns — with success or with any
stage failure — every file and directory under the working directory is
gone and the filesystem outside the working directory is untouched.
(When a failed signal delivery in the goroutine kills the process, `Install`
does not return and the deferred removal is skipped; see the
counterexample.) -/
theorem install_removes_workdir_on_return (config : Config) (tmpdir : Path)
    (env : Env) (sched : Sched) (fs : FS) (eOpt : Option Err)
    (h : (Install (newInstaller config tmpdir) env sched fs).out = IOut.ret eOpt) :
    (∀ p, inDir tmpdir p = true →
      lookupFS (Install (newInstaller config tmpdir) env sched fs).fs p = none)
    ∧ (∀ p, inDir tmpdir p = false →
      lookupFS (Install (newInstaller config tmpdir) env sched fs).fs p = lookupFS fs p) := by
  have himg : inDir tmpdir (tmpdir ++ [imageFilename]) = true := inDir_append _ _
  cases hce : env.createErr with
  | some e =>
    constructor <;> intro p hp
    · simp only [Install, createImage, hce, newInstaller]
      rw [lookup_removeAll]
      simp [hp]
    · simp only [Install, createImage, hce, newInstaller]
      rw [lookup_removeAll]
      simp [hp]
  | none =>
    cases hse : env.runStartErr with
    | some e =>
      constructor <;> intro p hp
      · simp only [Install, createImage, hce, newInstaller, runMachine, hse]
        rw [lookup_removeAll]
        simp [hp]
      · simp only [Install, createImage, hce, newInstaller, runMachine, hse]
        rw [lookup_removeAll]
        simp only [hp, Bool.false_eq_true, if_false]
        exact lookup_write_ne _ _ (ne_of_inDir himg hp)
    | none =>
      cases sched with
      | inputFirst =>
        cases hsig : env.signalErr with
        | some e =>
          exact absurd h (by simp [Install, createImage, hce, newInstaller,
            runMachine, hse, hsig])
        | none =>
          cases hwait : env.runWaitErr with
          | some e =>
            constructor <;> intro p hp
            · simp only [Install, createImage, hce, newInstaller, runMachine, hse,
                hsig, hwait]
              rw [lookup_removeAll]
              simp [hp]
            · simp only [Install, createImage, hce, newInstaller, runMachine, hse,
                hsig, hwait]
              rw [lookup_removeAll]
              simp only [hp, Bool.false_eq_true, if_false]
              rw [lookup_write_ne _ _ (ne_of_inDir himg hp),
                lookup_write_ne _ _ (ne_of_inDir himg hp)]
          | none =>
            constructor <;> intro p hp
            · simp only [Install, createImage, hce, newInstaller, runMachine, hse,
                hsig, hwait]
              exact (installCompress_lookup config tmpdir env _ _ p).1 hp
            · simp only [Install, createImage, hce, newInstaller, runMachine, hse,
                hsig, hwait]
              refine ((installCompress_lookup config tmpdir env _ _ p).2 hp).trans ?_
              rw [lookup_write_ne _ _ (ne_of_inDir himg hp),
                lookup_write_ne _ _ (ne_of_inDir himg hp)]
      | exitFirst =>
        cases hwait : env.runWaitErr with
        | some e =>
          constructor <;> intro p hp
          · simp only [Install, createImage, hce, newInstaller, runMachine, hse, hwait]
            rw [lookup_removeAll]
            simp [hp]
          · simp only [Install, createImage, hce, newInstaller, runMachine, hse, hwait]
            rw [lookup_removeAll]
            simp only [hp, Bool.false_eq_true, if_false]
            rw [lookup_write_ne _ _ (ne_of_inDir himg hp),
              lookup_write_ne _ _ (ne_of_inDir himg hp)]
        | none =>
          constructor <;> intro p hp
          · simp only [Install, createImage, hce, newInstaller, runMachine, hse, hwait]
            exact (installCompress_lookup config tmpdir env _ _ p).1 hp
          · simp only [Install, createImage, hce, newInstaller, runMachine, hse, hwait]
            refine ((installCompress_lookup config tmpdir env _ _ p).2 hp).trans ?_
            rw [lookup_write_ne _ _ (ne_of_inDir himg hp),
              lookup_write_ne _ _ (ne_of_inDir himg hp)]

/-- Witness for the amended claim C2 at a concrete input: after a fully
successful run the working directory itself is gone. -/
theorem install_removes_workdir_on_return_w :
    lookupFS (Install (newInstaller sampleConfig sampleDir) envAllOk
        Sched.inputFirst sampleFS).fs sampleDir = none :=
  (install_removes_workdir_on_return sampleConfig sampleDir envAllOk
    Sched.inputFirst sampleFS none rfl).1 sampleDir (by decide)

/-- Counterexample to C2 as stated: when signal delivery fails during
the run-machine stage, the `log.Fatal` in the goroutine kills the process,
the deferred removal never runs, and the working directory (still
holding the created disk image) survives the run. -/
theorem workdir_survives_fatal_signal :
    (Install sampleInstaller envSigFail Sched.inputFirst sampleFS).out =
      IOut.fatal "operation not permitted"
    ∧ lookupFS (Install sampleInstaller envSigFail Sched.inputFirst sampleFS).fs
        sampleDir = some ""
    ∧ IEv.removeDir ∉ (Install sampleInstaller envSigFail Sched.inputFirst sampleFS).trace := by
  decide

end VMInstaller
